import Mathlib

/-!
# Verification of the pytest-cov plugin shim (`pytest_cov.py`)

A shallow embedding of the coverage plugin for pytest.  The plugin itself
(`pytest_cov.py`) is pure coordination logic: it selects a controller
topology, wires pytest lifecycle hooks to the controller, and enforces a
minimum-coverage threshold.  The coverage controllers live in the external
`cov_core` package; only the constructor arguments and the lifecycle calls
the plugin makes are visible here, so controllers are embedded as records
of those arguments plus a started flag, and the percentage returned by
`summary()` is a parameter of the terminal-summary hook.

Coverage percentages are floating-point in the source; they are embedded
as rationals, which preserves the exact strict-order comparisons the
source performs.
-/

namespace PytestCov

/-- The parsed command-line options the plugin reads
(`pytest_addoption`, plus the xdist options read via `getattr` in
`CovPlugin.__init__`).  `numprocesses` is embedded as the truthiness of
`getattr(options, 'numprocesses', False)`; `cov_min` is `None` when
`--cov-min` was not given (the option has no default). -/
structure Options where
  cov_source : List String
  cov_report : List String
  cov_config : String
  no_cov_on_fail : Bool
  cov_min : Option Int
  numprocesses : Bool
  distload : Bool
  dist : String
deriving Repr, DecidableEq

/-- The three controller classes of `cov_core` the plugin can instantiate. -/
inductive ControllerKind where
  | central
  | distMaster
  | distSlave
deriving Repr, DecidableEq

/-- A `cov_core` controller, embedded as the record of the arguments the
plugin passes to `controller_cls(...)` in `CovPlugin.start` (the `config`
argument only forwards the options object to `cov_core` and carries no
further information), together with the externally observable state the
plugin relies on: whether `start()` ran, and the engine handle `cov`
exposed to the `cov` funcarg. -/
structure Controller where
  kind : ControllerKind
  cov_source : List String
  cov_report : List String
  cov_config : String
  nodeid : Option String
  started : Bool
  cov : Option Nat
deriving Repr, DecidableEq

/-- Modelled from the spec: `CoverageController.start()` "constructs the
engine instance bound to the controller's data-file name and config path,
begins measurement".  The engine itself is opaque; starting records the
flag and installs an engine handle. -/
def Controller.start (c : Controller) : Controller :=
  { c with started := true, cov := some 0 }

/-- The mutable state of a `CovPlugin` instance: the fields set in
`CovPlugin.__init__` (`pid`, `cov`, `cov_controller`, `failed`,
`options`). -/
structure CovPlugin where
  pid : Option Nat
  cov : Option Nat
  cov_controller : Option Controller
  failed : Bool
  options : Options
deriving Repr, DecidableEq

/-- `CovPlugin.start`: instantiate `controller_cls` with
`(cov_source, cov_report or ['term'], cov_config, config, nodeid)` and
call its `start()`.  Python's `or` on the report list yields `['term']`
exactly when the user-supplied list is empty. -/
def CovPlugin.start (p : CovPlugin) (controller_cls : ControllerKind)
    (nodeid : Option String) : CovPlugin :=
  let ctrl : Controller :=
    { kind := controller_cls
      cov_source := p.options.cov_source
      cov_report := if p.options.cov_report.isEmpty then ["term"]
                    else p.options.cov_report
      cov_config := p.options.cov_config
      nodeid := nodeid
      started := false
      cov := none }
  { p with cov_controller := some ctrl.start }

/-- The distribution test of `CovPlugin.__init__`:
`getattr(options, 'numprocesses', False) or getattr(options, 'distload',
False) or getattr(options, 'dist', 'no') != 'no'`. -/
def is_dist (options : Options) : Bool :=
  options.numprocesses || options.distload || options.dist != "no"

/-- `CovPlugin.__init__`: initialise the state fields, then
`if is_dist and start: self.start(DistMaster) elif start:
self.start(Central)`.  The slave controller is only started later, in the
session-start hook. -/
def covPluginInit (options : Options) (start : Bool) : CovPlugin :=
  let p : CovPlugin :=
    { pid := none, cov := none, cov_controller := none, failed := false
      options := options }
  if is_dist options && start then p.start .distMaster none
  else if start then p.start .central none
  else p

/-- The `slaveinput` dict attached to a worker's config by the xdist
scheduler; the plugin only reads its `'slaveid'` key. -/
structure SlaveInput where
  slaveid : Option String
deriving Repr, DecidableEq

/-- The parts of the pytest session the plugin reads at session start:
`session.config.slaveinput` (absent on the master) and the `nodeid`
fallback read via `getattr(session, 'nodeid')`. -/
structure Session where
  slaveinput : Option SlaveInput
  nodeid : String
deriving Repr, DecidableEq

/-- `CovPlugin.pytest_sessionstart`: capture `os.getpid()` into
`self.pid`; if the config carries `slaveinput`, start a `DistSlave`
controller with node id `slaveinput.get('slaveid', session.nodeid)`. -/
def pytest_sessionstart (p : CovPlugin) (session : Session)
    (sessionPid : Nat) : CovPlugin :=
  let p1 := { p with pid := some sessionPid }
  match session.slaveinput with
  | some si => p1.start .distSlave (some (si.slaveid.getD session.nodeid))
  | none => p1

/-- `CovPlugin.pytest_sessionfinish`: record `self.failed =
exitstatus != 0` and call `self.cov_controller.finish()` when a
controller exists.  The returned flag records whether `finish()` was
invoked. -/
def pytest_sessionfinish (p : CovPlugin) (exitstatus : Int) :
    CovPlugin × Bool :=
  let p1 := { p with failed := exitstatus != 0 }
  (p1, p1.cov_controller.isSome)

/-- The externally observable effect of one run of
`CovPlugin.pytest_terminal_summary`: how many times
`cov_controller.summary(...)` was invoked, and the `(cov_min, total)`
pair interpolated into the `CoverageError` message when one was
raised. -/
structure TerminalSummaryEffect where
  summaryCalls : Nat
  raised : Option (Int × ℚ)
deriving Repr, DecidableEq

/-- `CovPlugin.pytest_terminal_summary`: return early when no controller
exists; skip reporting when the run failed and `--no-cov-on-fail` is set;
otherwise call `summary()` once, obtaining `total`, and raise
`CoverageError` when `total < self.options.cov_min`.  When `--cov-min`
was not given, `cov_min` is `None` and the Python 2 mixed-type comparison
`float < None` is always false, so no error is raised.  The percentage
`summary()` returns is external input, passed in as `total`. -/
def pytest_terminal_summary (p : CovPlugin) (total : ℚ) :
    TerminalSummaryEffect :=
  match p.cov_controller with
  | none => { summaryCalls := 0, raised := none }
  | some _ =>
    if p.failed && p.options.no_cov_on_fail then
      { summaryCalls := 0, raised := none }
    else
      match p.options.cov_min with
      | some m =>
        if total < (m : ℚ) then
          { summaryCalls := 1, raised := some (m, total) }
        else
          { summaryCalls := 1, raised := none }
      | none => { summaryCalls := 1, raised := none }

/-- Modelled from the spec: `cov_core_init.init()` starts a fresh
coverage measurement in the current process and returns its engine
handle.  The engine is opaque; only the handle's presence matters to the
plugin. -/
def cov_core_init_init : Nat := 0

/-- `CovPlugin.pytest_runtest_setup`: when `os.getpid() != self.pid`,
the test runs in another process than the session, so coverage is
started manually via `cov_core_init.init()` and stored in `self.cov`. -/
def pytest_runtest_setup (p : CovPlugin) (currentPid : Nat) : CovPlugin :=
  if some currentPid != p.pid then { p with cov := some cov_core_init_init }
  else p

/-- `CovPlugin.pytest_runtest_teardown`: when `self.cov` is set, call
`cov_core.multiprocessing_finish(self.cov)` and clear `self.cov`.  The
returned flag records whether the finalisation call was made. -/
def pytest_runtest_teardown (p : CovPlugin) : CovPlugin × Bool :=
  match p.cov with
  | some _ => ({ p with cov := none }, true)
  | none => (p, false)

/-- The pytest plugin manager, restricted to what `pytest_cov.py` uses:
the list of `(name, plugin)` registrations. -/
abbrev PluginManager := List (String × CovPlugin)

/-- `pluginmanager.register(plugin, name)`. -/
def register (pm : PluginManager) (plugin : CovPlugin) (name : String) :
    PluginManager :=
  pm ++ [(name, plugin)]

/-- `pluginmanager.hasplugin(name)`. -/
def hasplugin (pm : PluginManager) (name : String) : Bool :=
  pm.any (fun r => r.1 == name)

/-- `pluginmanager.getplugin(name)`: the plugin registered under
`name`. -/
def getplugin (pm : PluginManager) (name : String) : Option CovPlugin :=
  (pm.find? (fun r => r.1 == name)).map (fun r => r.2)

/-- `pytest_load_initial_conftests`: when the parsed early arguments
carry at least one `--cov` source path, construct a `CovPlugin` (with
the default `start=True`) and register it as `'_cov'`. -/
def pytest_load_initial_conftests (pm : PluginManager) (ns : Options) :
    PluginManager :=
  if !ns.cov_source.isEmpty then register pm (covPluginInit ns true) "_cov"
  else pm

/-- `pytest_configure`: when `cov_source` is configured and no `'_cov'`
plugin was registered by the initial-conftests path, construct a
`CovPlugin` with `start=False` and register it as `'_cov'`. -/
def pytest_configure (pm : PluginManager) (options : Options) :
    PluginManager :=
  if !options.cov_source.isEmpty && !hasplugin pm "_cov" then
    register pm (covPluginInit options false) "_cov"
  else pm

/-- `pytest_funcarg__cov`: check `hasplugin('_cov')`, fetch the plugin
with `getplugin('_cov')`, and when its `cov_controller` is set (a
controller object is always truthy) return the controller's engine
handle `cov_controller.cov`; on every other path return `None`.  The
inner `none` branch is unreachable: `hasplugin` succeeding means
`getplugin` finds the registration. -/
def pytest_funcarg__cov (pm : PluginManager) : Option Nat :=
  if hasplugin pm "_cov" then
    match getplugin pm "_cov" with
    | some plugin =>
      match plugin.cov_controller with
      | some c => c.cov
      | none => none
    | none => none
  else none

/-- The `choices` list of the `--cov-report` option in
`pytest_addoption`. -/
def cov_report_choices : List String :=
  ["term", "term-missing", "annotate", "html", "xml", ""]

/-- Modelled from the spec: argparse rejects, at option-parsing time, any
`--cov-report` value outside the declared `choices` list, and accepts
every value inside it. -/
def covReportAccepted (v : String) : Bool :=
  cov_report_choices.contains v

/-- The pytest startup sequence relevant to plugin registration:
`pytest_load_initial_conftests` runs first (on the plugin manager with no
`'_cov'` entry yet), then `pytest_configure` on the resulting manager. -/
def registerPhase (options : Options) : PluginManager :=
  pytest_configure (pytest_load_initial_conftests [] options) options

/-! ## Sample states used by witnesses and counterexamples -/

/-- Options of a plain single-process run: one source path, no report
kinds given, a 50% minimum. -/
def optsA : Options :=
  { cov_source := ["pkg"], cov_report := [], cov_config := ".coveragerc"
    no_cov_on_fail := false, cov_min := some 50, numprocesses := false
    distload := false, dist := "no" }

/-- Options of a distributed run (`--dist load`), report kinds given,
failure suppression on, no minimum. -/
def optsB : Options :=
  { cov_source := ["pkg"], cov_report := ["html", "xml"]
    cov_config := ".coveragerc", no_cov_on_fail := true, cov_min := none
    numprocesses := false, distload := false, dist := "load" }

/-- A plugin built on `optsA` with the default `start=True`. -/
def pluginA : CovPlugin := covPluginInit optsA true

/-- The central controller `pluginA` holds after construction. -/
def ctrlA : Controller :=
  { kind := ControllerKind.central, cov_source := ["pkg"]
    cov_report := ["term"], cov_config := ".coveragerc", nodeid := none
    started := true, cov := some 0 }

/-- The plugin manager after the initial-conftests hook ran on
`optsA`. -/
def pmA : PluginManager := pytest_load_initial_conftests [] optsA

/-- A session whose config carries an xdist `slaveinput` marker with a
`'slaveid'` entry. -/
def slaveSession : Session :=
  { slaveinput := some { slaveid := some "gw0" }, nodeid := "node1" }

/-- A session without the `slaveinput` marker. -/
def masterSession : Session := { slaveinput := none, nodeid := "node1" }

/-! ## Claims -/

/-- Claim C1: at terminal-summary time, when a controller exists and
reporting is not suppressed, if `--cov-min` is configured as `T` and the
percentage `P` returned by `summary()` satisfies `P < T` (strict
less-than of the exact percentage against the integer minimum), a
`CoverageError` is raised carrying exactly `T` and `P`; if `P ≥ T`, no
such failure is raised. -/
theorem terminal_summary_threshold (p : CovPlugin) (total : ℚ) (T : Int)
    (hc : p.cov_controller.isSome = true)
    (hs : ¬(p.failed = true ∧ p.options.no_cov_on_fail = true))
    (hm : p.options.cov_min = some T) :
    (total < (T : ℚ) →
      pytest_terminal_summary p total =
        { summaryCalls := 1, raised := some (T, total) }) ∧
    ((T : ℚ) ≤ total →
      pytest_terminal_summary p total =
        { summaryCalls := 1, raised := none }) := by
  obtain ⟨c, hcc⟩ := Option.isSome_iff_exists.mp hc
  have hfs : (p.failed && p.options.no_cov_on_fail) = false := by
    cases hf : p.failed <;> cases hn : p.options.no_cov_on_fail <;>
      simp_all
  unfold pytest_terminal_summary
  rw [hcc, hfs, hm]
  simp only [Bool.false_eq_true, if_false]
  constructor
  · intro hlt
    rw [if_pos hlt]
  · intro hge
    rw [if_neg (not_lt.mpr hge)]

/-- Witness for C1 at `pluginA` with `T = 50`, exercised at a failing
percentage `P = 42` and a passing percentage `P = 75`. -/
theorem terminal_summary_threshold_witness :
    pluginA.cov_controller.isSome = true ∧
    ¬(pluginA.failed = true ∧ pluginA.options.no_cov_on_fail = true) ∧
    pluginA.options.cov_min = some 50 ∧
    pytest_terminal_summary pluginA 42 =
      { summaryCalls := 1, raised := some (50, 42) } ∧
    pytest_terminal_summary pluginA 75 =
      { summaryCalls := 1, raised := none } :=
  ⟨by decide, by decide, by decide,
   (terminal_summary_threshold pluginA 42 50 (by decide) (by decide)
     (by decide)).1 (by norm_num),
   (terminal_summary_threshold pluginA 75 50 (by decide) (by decide)
     (by decide)).2 (by norm_num)⟩

/-- Claim C6: one run of the terminal-summary hook calls `summary()` at
most once, and calls it exactly once precisely when a controller exists
and reporting is not suppressed (so per session — the scheduler fires
the hook once — at most one coverage report is produced, and exactly one
when measurement was active and not suppressed). -/
theorem terminal_summary_at_most_one_report (p : CovPlugin) (total : ℚ) :
    (pytest_terminal_summary p total).summaryCalls ≤ 1 ∧
    ((pytest_terminal_summary p total).summaryCalls = 1 ↔
      (p.cov_controller.isSome = true ∧
        ¬(p.failed = true ∧ p.options.no_cov_on_fail = true))) := by
  unfold pytest_terminal_summary
  cases hcc : p.cov_controller with
  | none => simp
  | some c =>
    cases hf : p.failed <;>
      cases hn : p.options.no_cov_on_fail <;>
        cases hm : p.options.cov_min <;>
          simp_all <;> split <;> simp

/-- Claim C8: the set of accepted `--cov-report` values is exactly
`{term, term-missing, annotate, html, xml, ""}`: every value in the set
is accepted and every value outside it is rejected at option-parsing
time. -/
theorem cov_report_choice_set (v : String) :
    covReportAccepted v = true ↔
      (v = "term" ∨ v = "term-missing" ∨ v = "annotate" ∨ v = "html" ∨
        v = "xml" ∨ v = "") := by
  unfold covReportAccepted cov_report_choices
  simp [List.contains_iff_exists_mem_beq]

/-- Claim C2, counterexample: a session that passed, with suppression
not set, but whose plugin holds no controller (the `pytest_configure`
registration path constructs with `start=False`, and on a non-worker
session no controller is ever started): `summary()` is not invoked,
refuting the claim's unconditional "otherwise summary() is invoked". -/
theorem summary_gate_cex :
    (covPluginInit optsA false).cov_controller = none ∧
    (pytest_sessionfinish (covPluginInit optsA false) 0).1.failed
      = false ∧
    (covPluginInit optsA false).options.no_cov_on_fail = false ∧
    ¬((pytest_terminal_summary
        (pytest_sessionfinish (covPluginInit optsA false) 0).1
        80).summaryCalls = 1) := by
  refine ⟨by decide, by decide, by decide, ?_⟩
  decide

/-- Claim C2, amended: for every session whose exit status is non-zero
and whose `--no-cov-on-fail` option is set, the terminal-summary step
invokes neither `summary()` nor `report()` and raises no coverage
failure regardless of the configured threshold; otherwise (run passed,
or suppression not set), `summary()` is invoked provided a controller
exists. -/
theorem sessionfinish_terminal_summary_gate (p : CovPlugin)
    (exitstatus : Int) (total : ℚ) :
    (exitstatus ≠ 0 → p.options.no_cov_on_fail = true →
      pytest_terminal_summary (pytest_sessionfinish p exitstatus).1 total
        = { summaryCalls := 0, raised := none }) ∧
    ((exitstatus = 0 ∨ p.options.no_cov_on_fail = false) →
      p.cov_controller.isSome = true →
      (pytest_terminal_summary (pytest_sessionfinish p exitstatus).1
        total).summaryCalls = 1) := by
  constructor
  · intro hx hn
    have hfail : (pytest_sessionfinish p exitstatus).1.failed = true := by
      simp [pytest_sessionfinish, hx]
    unfold pytest_terminal_summary
    cases hcc : (pytest_sessionfinish p exitstatus).1.cov_controller with
    | none => rfl
    | some c =>
      have hopt : (pytest_sessionfinish p exitstatus).1.options
          = p.options := rfl
      rw [hfail, hopt, hn]
      rfl
  · intro hpass hc
    obtain ⟨c, hcc⟩ := Option.isSome_iff_exists.mp hc
    have hcc1 : (pytest_sessionfinish p exitstatus).1.cov_controller
        = some c := hcc
    have hfs : ((pytest_sessionfinish p exitstatus).1.failed &&
        (pytest_sessionfinish p exitstatus).1.options.no_cov_on_fail)
        = false := by
      rcases hpass with hx | hn
      · simp [pytest_sessionfinish, hx]
      · have : (pytest_sessionfinish p exitstatus).1.options
            = p.options := rfl
        rw [this, hn]
        simp
    unfold pytest_terminal_summary
    rw [hcc1, hfs]
    simp only [Bool.false_eq_true, if_false]
    split
    · split
      · rfl
      · rfl
    · rfl

/-- Witness for the amended C2: a failed, suppressed run of `pluginB`
skips reporting; a passed run of `pluginA` calls `summary()` once. -/
theorem sessionfinish_terminal_summary_gate_witness :
    pytest_terminal_summary
        (pytest_sessionfinish (covPluginInit optsB true) 1).1 80
      = { summaryCalls := 0, raised := none } ∧
    (pytest_terminal_summary (pytest_sessionfinish pluginA 0).1
      80).summaryCalls = 1 :=
  ⟨(sessionfinish_terminal_summary_gate (covPluginInit optsB true) 1
      80).1 (by decide) (by decide),
   (sessionfinish_terminal_summary_gate pluginA 0 80).2 (Or.inl rfl)
     (by decide)⟩

/-- Claim C3, counterexample: a construction with `start=False` (the
`pytest_configure` registration path) instantiates no controller at all,
even when the options indicate a distributed run, refuting the claim's
unconditional "at plugin construction ... a DistMaster controller is
instantiated and started". -/
theorem init_topology_cex :
    is_dist optsB = true ∧
    (covPluginInit optsB false).cov_controller = none := by
  decide

/-- Claim C3, amended: at plugin construction with the `start` flag set
(its default value; the configure-time path passes `start=False` and
defers controller creation), a DistMaster controller is instantiated and
started when the options indicate multiple cooperating worker processes,
and a Central controller is instantiated and started otherwise. -/
theorem init_topology_selection (options : Options) :
    (is_dist options = true →
      ∃ c, (covPluginInit options true).cov_controller = some c ∧
        c.kind = ControllerKind.distMaster ∧ c.started = true) ∧
    (is_dist options = false →
      ∃ c, (covPluginInit options true).cov_controller = some c ∧
        c.kind = ControllerKind.central ∧ c.started = true) := by
  constructor
  · intro h
    unfold covPluginInit
    rw [h]
    exact ⟨_, rfl, rfl, rfl⟩
  · intro h
    unfold covPluginInit
    rw [h]
    exact ⟨_, rfl, rfl, rfl⟩

/-- Witness for the amended C3: `optsB` selects DistMaster, `optsA`
selects Central. -/
theorem init_topology_selection_witness :
    is_dist optsB = true ∧ is_dist optsA = false ∧
    (∃ c, (covPluginInit optsB true).cov_controller = some c ∧
      c.kind = ControllerKind.distMaster ∧ c.started = true) ∧
    (∃ c, (covPluginInit optsA true).cov_controller = some c ∧
      c.kind = ControllerKind.central ∧ c.started = true) :=
  ⟨by decide, by decide,
   (init_topology_selection optsB).1 (by decide),
   (init_topology_selection optsA).2 (by decide)⟩

/-- Claim C4: at session start, if the session's config carries the
`slaveinput` marker, the plugin overrides the construction-time topology
and instantiates and starts a DistSlave controller whose node identifier
is the marker's `'slaveid'` value; if the marker is absent, no new
controller is created at session start. -/
theorem sessionstart_slave_override (p : CovPlugin) (s : Session)
    (sessionPid : Nat) :
    (∀ si n, s.slaveinput = some si → si.slaveid = some n →
      ∃ c, (pytest_sessionstart p s sessionPid).cov_controller = some c ∧
        c.kind = ControllerKind.distSlave ∧ c.nodeid = some n ∧
        c.started = true) ∧
    (s.slaveinput = none →
      (pytest_sessionstart p s sessionPid).cov_controller
        = p.cov_controller) := by
  constructor
  · intro si n hsi hid
    unfold pytest_sessionstart
    rw [hsi]
    simp only [hid, Option.getD_some]
    exact ⟨_, rfl, rfl, rfl, rfl⟩
  · intro hsi
    unfold pytest_sessionstart
    rw [hsi]

/-- Witness for C4: on `slaveSession` a started DistSlave controller
with node id `"gw0"` is created; on `masterSession` the controller is
unchanged. -/
theorem sessionstart_slave_override_witness :
    slaveSession.slaveinput = some { slaveid := some "gw0" } ∧
    (∃ c, (pytest_sessionstart pluginA slaveSession 7).cov_controller
        = some c ∧ c.kind = ControllerKind.distSlave ∧
        c.nodeid = some "gw0" ∧ c.started = true) ∧
    (pytest_sessionstart pluginA masterSession 7).cov_controller
      = pluginA.cov_controller :=
  ⟨rfl,
   (sessionstart_slave_override pluginA slaveSession 7).1
     { slaveid := some "gw0" } "gw0" rfl rfl,
   (sessionstart_slave_override pluginA masterSession 7).2 rfl⟩

/-- The session-start hook records the observed process id in
`self.pid` on every path (the slave branch does not touch `pid`). -/
theorem sessionstart_pid_eq (p : CovPlugin) (s : Session)
    (sessionPid : Nat) :
    (pytest_sessionstart p s sessionPid).pid = some sessionPid := by
  unfold pytest_sessionstart
  cases s.slaveinput <;> rfl

/-- Claim C5: the session's process id is captured once at session
start; at a test item's setup, if the currently observed process id
differs from the captured one, a fresh coverage measurement is started
manually (stored in `self.cov`), and the item's teardown finalizes and
clears any manually started measurement; if the ids are equal, no manual
measurement is started (the state is unchanged). -/
theorem per_test_manual_measurement (p : CovPlugin) (s : Session)
    (sessionPid q : Nat) :
    ((pytest_sessionstart p s sessionPid).pid = some sessionPid) ∧
    (q ≠ sessionPid →
      (pytest_runtest_setup (pytest_sessionstart p s sessionPid) q).cov
        = some cov_core_init_init) ∧
    (q = sessionPid →
      pytest_runtest_setup (pytest_sessionstart p s sessionPid) q
        = pytest_sessionstart p s sessionPid) ∧
    (∀ p1 : CovPlugin, ∀ h : Nat, p1.cov = some h →
      pytest_runtest_teardown p1 = ({ p1 with cov := none }, true)) ∧
    (∀ p1 : CovPlugin, p1.cov = none →
      pytest_runtest_teardown p1 = (p1, false)) := by
  refine ⟨sessionstart_pid_eq p s sessionPid, ?_, ?_, ?_, ?_⟩
  · intro hne
    unfold pytest_runtest_setup
    rw [sessionstart_pid_eq]
    simp [hne]
  · intro heq
    unfold pytest_runtest_setup
    rw [sessionstart_pid_eq, heq]
    simp
  · intro p1 h hcov
    unfold pytest_runtest_teardown
    rw [hcov]
  · intro p1 hcov
    unfold pytest_runtest_teardown
    rw [hcov]

/-- Witness for C5 on `pluginA` and `masterSession` with session pid 7:
setup in process 8 starts a manual measurement, setup in process 7 does
not, and teardown finalizes and clears the manual measurement. -/
theorem per_test_manual_measurement_witness :
    ((pytest_sessionstart pluginA masterSession 7).pid = some 7) ∧
    ((pytest_runtest_setup (pytest_sessionstart pluginA masterSession 7)
        8).cov = some cov_core_init_init) ∧
    (pytest_runtest_setup (pytest_sessionstart pluginA masterSession 7) 7
      = pytest_sessionstart pluginA masterSession 7) ∧
    (pytest_runtest_teardown
        (pytest_runtest_setup (pytest_sessionstart pluginA masterSession 7)
          8)).1.cov = none :=
  ⟨(per_test_manual_measurement pluginA masterSession 7 8).1,
   (per_test_manual_measurement pluginA masterSession 7 8).2.1
     (by decide),
   (per_test_manual_measurement pluginA masterSession 7 7).2.2.1 rfl,
   by rw [(per_test_manual_measurement pluginA masterSession 7 8).2.2.2.1
       (pytest_runtest_setup (pytest_sessionstart pluginA masterSession 7)
         8) cov_core_init_init
       ((per_test_manual_measurement pluginA masterSession 7 8).2.1
         (by decide))]⟩

/-- `hasplugin` succeeds exactly when `getplugin` finds a
registration under the same name. -/
theorem hasplugin_iff_getplugin_isSome (pm : PluginManager)
    (name : String) :
    hasplugin pm name = true ↔ (getplugin pm name).isSome = true := by
  unfold hasplugin getplugin
  induction pm with
  | nil => simp
  | cons r rest ih =>
    by_cases h : r.1 == name
    · simp [List.any_cons, List.find?_cons, h]
    · simp only [List.any_cons, List.find?_cons, h, Bool.false_or,
        cond_false]
      exact ih

/-- Claim C7: the `cov` funcarg returns the live coverage-engine handle
of the active controller when the `'_cov'` plugin is registered and its
controller exists, and returns `None` in every other case (plugin not
registered, or no controller instantiated). -/
theorem funcarg_cov_access (pm : PluginManager) :
    (∀ plugin c, getplugin pm "_cov" = some plugin →
      plugin.cov_controller = some c →
      pytest_funcarg__cov pm = c.cov) ∧
    (getplugin pm "_cov" = none → pytest_funcarg__cov pm = none) ∧
    (∀ plugin, getplugin pm "_cov" = some plugin →
      plugin.cov_controller = none → pytest_funcarg__cov pm = none) := by
  refine ⟨?_, ?_, ?_⟩
  · intro plugin c hget hcc
    have hhas : hasplugin pm "_cov" = true := by
      rw [hasplugin_iff_getplugin_isSome, hget]
      rfl
    unfold pytest_funcarg__cov
    rw [hhas, hget]
    simp [hcc]
  · intro hget
    unfold pytest_funcarg__cov
    by_cases hhas : hasplugin pm "_cov" = true
    · rw [hhas, hget]
      rfl
    · rw [Bool.not_eq_true] at hhas
      rw [hhas]
      rfl
  · intro plugin hget hcc
    have hhas : hasplugin pm "_cov" = true := by
      rw [hasplugin_iff_getplugin_isSome, hget]
      rfl
    unfold pytest_funcarg__cov
    rw [hhas, hget]
    simp [hcc]

/-- Witness for C7: on `pmA` the funcarg returns `ctrlA`'s engine
handle; on an empty plugin manager it returns `None`. -/
theorem funcarg_cov_access_witness :
    pluginA.cov_controller = some ctrlA ∧
    pytest_funcarg__cov pmA = ctrlA.cov ∧
    pytest_funcarg__cov [] = none :=
  ⟨by decide,
   (funcarg_cov_access pmA).1 pluginA ctrlA (by decide) (by decide),
   (funcarg_cov_access []).2.1 rfl⟩

/-- Claim C9: `CovPlugin.start` hands the controller `['term']` as the
report-kind list when the user specified none, and exactly the
user-specified list otherwise. -/
theorem start_default_report_kinds (p : CovPlugin)
    (cls : ControllerKind) (nodeid : Option String) :
    (p.options.cov_report = [] →
      ∃ c, (p.start cls nodeid).cov_controller = some c ∧
        c.cov_report = ["term"]) ∧
    (p.options.cov_report ≠ [] →
      ∃ c, (p.start cls nodeid).cov_controller = some c ∧
        c.cov_report = p.options.cov_report) := by
  constructor
  · intro h
    refine ⟨_, rfl, ?_⟩
    simp [Controller.start, h]
  · intro h
    refine ⟨_, rfl, ?_⟩
    simp only [Controller.start]
    rw [if_neg]
    simp [h]

/-- Witness for C9: `pluginA` specified no report kinds and gets
`['term']`; a plugin on `optsB` gets the user list `['html', 'xml']`. -/
theorem start_default_report_kinds_witness :
    (∃ c, (pluginA.start ControllerKind.central none).cov_controller
        = some c ∧ c.cov_report = ["term"]) ∧
    (∃ c, ((covPluginInit optsB false).start ControllerKind.distMaster
        none).cov_controller = some c ∧ c.cov_report = ["html", "xml"]) :=
  ⟨(start_default_report_kinds pluginA ControllerKind.central none).1
     rfl,
   (start_default_report_kinds (covPluginInit optsB false)
     ControllerKind.distMaster none).2 (by decide)⟩

/-- Claim C10: over the registration phase (initial-conftests hook, then
configure hook), a `'_cov'` plugin is registered exactly when at least
one source path is configured, never more than one `'_cov'` entry
exists, and the configure-time hook is a no-op whenever a `'_cov'`
plugin is already registered. -/
theorem cov_registration_unique (options : Options) :
    ((registerPhase options).filter (fun r => r.1 == "_cov")).length
      ≤ 1 ∧
    (hasplugin (registerPhase options) "_cov" = true ↔
      options.cov_source ≠ []) ∧
    (∀ pm : PluginManager, hasplugin pm "_cov" = true →
      pytest_configure pm options = pm) := by
  refine ⟨?_, ?_, ?_⟩
  · unfold registerPhase pytest_configure pytest_load_initial_conftests
    cases h : options.cov_source.isEmpty <;>
      simp [register, hasplugin]
  · unfold registerPhase pytest_configure pytest_load_initial_conftests
    cases h : options.cov_source.isEmpty <;>
      simp_all [register, hasplugin, List.isEmpty_iff]
  · intro pm hhas
    unfold pytest_configure
    rw [hhas]
    simp

/-- Witness for C10's configure-time no-op conjunct, at the manager
produced by the initial-conftests hook on `optsA`; the other conjuncts
are exercised at `optsA` as well. -/
theorem cov_registration_unique_witness :
    ((registerPhase optsA).filter (fun r => r.1 == "_cov")).length ≤ 1 ∧
    hasplugin (registerPhase optsA) "_cov" = true ∧
    pytest_configure pmA optsA = pmA :=
  ⟨(cov_registration_unique optsA).1,
   (cov_registration_unique optsA).2.1.mpr (by decide),
   (cov_registration_unique optsA).2.2 pmA (by decide)⟩

end PytestCov
